import Mathlib

/-!
Shallow embedding of the Whisker Auth TXA repository
(`setup_database.py`, `generate_license.py`).

Randomness is modelled explicitly: every drawing operation takes an
entropy stream `Nat → Fin 256` (a stream of random bytes from the
operating system's secure source, as `secrets` provides) and reads a
prefix of it.  Machine bytes and 32-bit words are `Nat` with explicit
`% 2 ^ 32` / `% 256` where the Python values wrap.
-/

namespace WhiskerAuth

/-- `secrets.token_bytes(n)`: the next `n` bytes of the entropy stream. -/
def token_bytes (entropy : Nat → Fin 256) (n : Nat) : List Nat :=
  (List.range n).map fun i => (entropy i).val

/-- The sixteen lowercase hexadecimal digit characters, in value order. -/
def hexDigits : List Char := "0123456789abcdef".toList

/-- One byte rendered as two lowercase hexadecimal characters. -/
def byteToHex (b : Nat) : List Char :=
  [hexDigits.getD (b / 16) '0', hexDigits.getD (b % 16) '0']

/-- `secrets.token_hex(n)`: `n` random bytes rendered as `2*n` lowercase
hexadecimal characters. -/
def token_hex (entropy : Nat → Fin 256) (n : Nat) : String :=
  String.mk (((token_bytes entropy n).map byteToHex).flatten)

/-- Python's `str.upper()` on the character sequence of a string. -/
def strUpper (s : String) : String :=
  String.mk (s.data.map Char.toUpper)

/-- Python's `data.encode()`: the UTF-8 bytes of a string. -/
def strBytes (s : String) : List Nat :=
  s.toUTF8.toList.map (fun b => b.toNat)

/-! ## SHA-256 (FIPS 180-4), over lists of byte values -/

/-- Rotate a 32-bit word right by `n` positions. -/
def rotr32 (n x : Nat) : Nat :=
  ((x >>> n) ||| (x <<< (32 - n))) % 2 ^ 32

/-- SHA-256 small sigma 0. -/
def ssig0 (x : Nat) : Nat := rotr32 7 x ^^^ rotr32 18 x ^^^ (x >>> 3)

/-- SHA-256 small sigma 1. -/
def ssig1 (x : Nat) : Nat := rotr32 17 x ^^^ rotr32 19 x ^^^ (x >>> 10)

/-- SHA-256 big sigma 0. -/
def bsig0 (x : Nat) : Nat := rotr32 2 x ^^^ rotr32 13 x ^^^ rotr32 22 x

/-- SHA-256 big sigma 1. -/
def bsig1 (x : Nat) : Nat := rotr32 6 x ^^^ rotr32 11 x ^^^ rotr32 25 x

/-- SHA-256 choice function; `¬x` is complement within 32 bits. -/
def chf (x y z : Nat) : Nat := (x &&& y) ^^^ ((x ^^^ (2 ^ 32 - 1)) &&& z)

/-- SHA-256 majority function. -/
def majf (x y z : Nat) : Nat := (x &&& y) ^^^ (x &&& z) ^^^ (y &&& z)

/-- The 64 SHA-256 round constants of FIPS 180-4, written in decimal. -/
def K256 : List Nat :=
  [1116352408, 1899447441, 3049323471, 3921009573, 961987163,
   1508970993, 2453635748, 2870763221, 3624381080, 310598401,
   607225278, 1426881987, 1925078388, 2162078206, 2614888103,
   3248222580, 3835390401, 4022224774, 264347078, 604807628,
   770255983, 1249150122, 1555081692, 1996064986, 2554220882,
   2821834349, 2952996808, 3210313671, 3336571891, 3584528711,
   113926993, 338241895, 666307205, 773529912, 1294757372,
   1396182291, 1695183700, 1986661051, 2177026350, 2456956037,
   2730485921, 2820302411, 3259730800, 3345764771, 3516065817,
   3600352804, 4094571909, 275423344, 430227734, 506948616,
   659060556, 883997877, 958139571, 1322822218, 1537002063,
   1747873779, 1955562222, 2024104815, 2227730452, 2361852424,
   2428436474, 2756734187, 3204031479, 3329325298]

/-- The eight initial SHA-256 chaining words, written in decimal. -/
def H256 : List Nat :=
  [1779033703, 3144134277, 1013904242, 2773480762, 1359893119,
   2600822924, 528734635, 1541459225]

/-- Big-endian packing of bytes into 32-bit words, four bytes per word. -/
def toWords : List Nat → List Nat
  | b0 :: b1 :: b2 :: b3 :: rest =>
      (b0 * 2 ^ 24 + b1 * 2 ^ 16 + b2 * 2 ^ 8 + b3) :: toWords rest
  | _ => []

/-- Big-endian serialization of one 32-bit word into four bytes. -/
def wordToBytes (w : Nat) : List Nat :=
  [w / 2 ^ 24 % 256, w / 2 ^ 16 % 256, w / 2 ^ 8 % 256, w % 256]

/-- Big-endian serialization of a value into `n` bytes. -/
def natToBytesBE : Nat → Nat → List Nat
  | 0, _ => []
  | n + 1, v => natToBytesBE n (v / 256) ++ [v % 256]

/-- Message-schedule extension: append `fuel` further words, each computed
from the words 2, 7, 15 and 16 places back. -/
def extendW (w : List Nat) : Nat → List Nat
  | 0 => w
  | fuel + 1 =>
      extendW (w ++ [(ssig1 (w.getD (w.length - 2) 0) + w.getD (w.length - 7) 0
        + ssig0 (w.getD (w.length - 15) 0) + w.getD (w.length - 16) 0) % 2 ^ 32]) fuel

/-- One SHA-256 compression round on the eight-word working state. -/
def sha256Round (st : List Nat) (kw : Nat × Nat) : List Nat :=
  let a := st.getD 0 0
  let b := st.getD 1 0
  let c := st.getD 2 0
  let d := st.getD 3 0
  let e := st.getD 4 0
  let f := st.getD 5 0
  let g := st.getD 6 0
  let h := st.getD 7 0
  let t1 := (h + bsig1 e + chf e f g + kw.1 + kw.2) % 2 ^ 32
  let t2 := (bsig0 a + majf a b c) % 2 ^ 32
  [(t1 + t2) % 2 ^ 32, a, b, c, (d + t1) % 2 ^ 32, e, f, g]

/-- Process one 64-byte block: 64 rounds, then add the working state to the
incoming hash value, word by word modulo `2 ^ 32`. -/
def processBlock (h : List Nat) (block : List Nat) : List Nat :=
  let w := extendW (toWords block) 48
  let st := List.foldl sha256Round h (K256.zip w)
  (h.zip st).map fun p => (p.1 + p.2) % 2 ^ 32

/-- Split a byte list into 64-byte blocks. -/
def splitBlocks (l : List Nat) : List (List Nat) :=
  if h : l = [] then []
  else l.take 64 :: splitBlocks (l.drop 64)
termination_by l.length
decreasing_by
  simp only [List.length_drop]
  cases l with
  | nil => exact absurd rfl h
  | cons a t => simp only [List.length_cons]; omega

/-- SHA-256 padding: `0x80`, zeros to 56 mod 64, then the bit length as
eight big-endian bytes. -/
def sha256Pad (msg : List Nat) : List Nat :=
  msg ++ [128] ++ List.replicate ((119 - msg.length % 64) % 64) 0
    ++ natToBytesBE 8 (msg.length * 8)

/-- SHA-256 of a byte list, as a 32-entry byte list. -/
def sha256 (msg : List Nat) : List Nat :=
  ((List.foldl processBlock H256 (splitBlocks (sha256Pad msg))).map wordToBytes).flatten

/-! ## HMAC-SHA256 and PBKDF2 (`hashlib.pbkdf2_hmac('sha256', …)`) -/

/-- HMAC-SHA256 with the standard 64-byte block size. -/
def hmac_sha256 (key msg : List Nat) : List Nat :=
  let k0 := if 64 < key.length then sha256 key else key
  let kp := k0 ++ List.replicate (64 - k0.length) 0
  sha256 ((kp.map fun b => b ^^^ 0x5c) ++ sha256 ((kp.map fun b => b ^^^ 0x36) ++ msg))

/-- The PBKDF2 inner loop: `count` further HMAC iterations, XOR-accumulated. -/
def pbkdf2Loop (password : List Nat) : List Nat → List Nat → Nat → List Nat
  | _, acc, 0 => acc
  | u, acc, count + 1 =>
      let u2 := hmac_sha256 password u
      pbkdf2Loop password u2 (acc.zipWith (· ^^^ ·) u2) count

/-- `hashlib.pbkdf2_hmac('sha256', password, salt, iterations)` with the
default derived-key length (32 bytes, one block). -/
def pbkdf2_hmac (password salt : List Nat) (iterations : Nat) : List Nat :=
  let u1 := hmac_sha256 password (salt ++ [0, 0, 0, 1])
  pbkdf2Loop password u1 u1 (iterations - 1)

/-! ## Base64 (`base64.b64encode` / the reverse decoding) -/

/-- The standard base64 alphabet, in value order. -/
def b64Alphabet : List Char :=
  "ABCDEFGHIJKLMNOPQRSTUVWXYZabcdefghijklmnopqrstuvwxyz0123456789+/".toList

/-- The character for a six-bit value. -/
def valToChar (v : Nat) : Char := b64Alphabet.getD v '='

/-- The six-bit value of an alphabet character, `none` off the alphabet. -/
def charToVal (c : Char) : Option Nat :=
  b64Alphabet.indexOf? c

/-- Base64 encoding of a byte list as characters, three bytes to four
characters, `=`-padded. -/
def encodeChunks : List Nat → List Char
  | [] => []
  | [a] => [valToChar (a / 4), valToChar (a % 4 * 16), '=', '=']
  | [a, b] => [valToChar (a / 4), valToChar (a % 4 * 16 + b / 16),
      valToChar (b % 16 * 4), '=']
  | a :: b :: c :: rest =>
      valToChar (a / 4) :: valToChar (a % 4 * 16 + b / 16)
        :: valToChar (b % 16 * 4 + c / 64) :: valToChar (c % 64)
        :: encodeChunks rest

/-- Strict base64 decoding of a character list: four characters to three
bytes, padding only at the very end; `none` on any malformation. -/
def decodeChunks : List Char → Option (List Nat)
  | [] => some []
  | c1 :: c2 :: c3 :: c4 :: rest =>
      match charToVal c1, charToVal c2 with
      | some v1, some v2 =>
          if c3 = '=' then
            if c4 = '=' ∧ rest = [] then some [v1 * 4 + v2 / 16] else none
          else
            match charToVal c3 with
            | some v3 =>
                if c4 = '=' then
                  if rest = [] then some [v1 * 4 + v2 / 16, v2 % 16 * 16 + v3 / 4]
                  else none
                else
                  match charToVal c4 with
                  | some v4 =>
                      (decodeChunks rest).map fun bs =>
                        (v1 * 4 + v2 / 16) :: (v2 % 16 * 16 + v3 / 4)
                          :: (v3 % 4 * 64 + v4) :: bs
                  | none => none
            | none => none
      | _, _ => none
  | _ => none

/-- `base64.b64encode(bs).decode('utf-8')` as a string. -/
def b64encode (bs : List Nat) : String := String.mk (encodeChunks bs)

/-- Base64 decoding of a string, `none` on malformed input. -/
def b64decode (s : String) : Option (List Nat) := decodeChunks s.data

/-! ## `setup_database.py` and `generate_license.py` functions -/

/-- `generate_secure_hash(data, salt=None)` from `setup_database.py`:
when no salt is supplied, 32 fresh bytes are drawn from the entropy
stream; the key is PBKDF2-HMAC-SHA256 of the UTF-8 secret with 100000
iterations; the result is `base64(salt ++ key)`. -/
def generate_secure_hash (entropy : Nat → Fin 256) (data : String)
    (salt : Option (List Nat)) : String :=
  let s := match salt with
    | none => token_bytes entropy 32
    | some s => s
  let key := pbkdf2_hmac (strBytes data) s 100000
  b64encode (s ++ key)

namespace GenerateLicense

/-- `generate_license_key()` from `generate_license.py`:
`secrets.token_hex(32).upper()`. -/
def generate_license_key (entropy : Nat → Fin 256) : String :=
  strUpper (token_hex entropy 32)

end GenerateLicense

namespace SetupDatabase

/-- `generate_license_key()` from `setup_database.py`:
`secrets.token_hex(32).upper()`. -/
def generate_license_key (entropy : Nat → Fin 256) : String :=
  strUpper (token_hex entropy 32)

end SetupDatabase

/-- Modelled from the spec: the repository has no `verify` function
(`src` only defines the hasher); §4.1 of the spec describes verification
as decoding the verifier, re-deriving the key from the embedded salt
(the first 32 bytes) by the same derivation, and comparing; a malformed
verifier is treated as a failed verification, never an exception. -/
def verify (secret : String) (verifier : String) : Bool :=
  match b64decode verifier with
  | none => false
  | some bytes =>
      decide (pbkdf2_hmac (strBytes secret) (bytes.take 32) 100000 = bytes.drop 32)

/-! ## The persisted schema (`cursor.executescript`, lines 33–133) -/

/-- One column of a `CREATE TABLE` statement. -/
structure ColumnDef where
  name : String
  sqlType : String
  notNull : Bool := false
  unique : Bool := false
  primaryKey : Bool := false
  dflt : Option String := none
deriving DecidableEq

/-- One `FOREIGN KEY (column) REFERENCES refTable(refColumn)` clause. -/
structure ForeignKey where
  column : String
  refTable : String
  refColumn : String
deriving DecidableEq

/-- One `CREATE TABLE` statement. -/
structure TableDef where
  name : String
  columns : List ColumnDef
  foreignKeys : List ForeignKey
deriving DecidableEq

/-- The `txa_users` table. -/
def txa_users : TableDef where
  name := "txa_users"
  columns :=
    [{ name := "id", sqlType := "INTEGER", primaryKey := true },
     { name := "uuid", sqlType := "TEXT", unique := true },
     { name := "username", sqlType := "TEXT", unique := true, notNull := true },
     { name := "email", sqlType := "TEXT", unique := true, notNull := true },
     { name := "password_hash", sqlType := "TEXT", notNull := true },
     { name := "password_salt", sqlType := "TEXT", notNull := true },
     { name := "status", sqlType := "TEXT", dflt := some "'active'" },
     { name := "is_admin", sqlType := "BOOLEAN", dflt := some "0" },
     { name := "security_level", sqlType := "INTEGER", dflt := some "1" },
     { name := "failed_login_attempts", sqlType := "INTEGER", dflt := some "0" },
     { name := "lockout_until", sqlType := "DATETIME" },
     { name := "last_login_at", sqlType := "DATETIME" },
     { name := "last_login_ip", sqlType := "TEXT" },
     { name := "registered_device_id", sqlType := "TEXT" },
     { name := "hardware_info", sqlType := "TEXT" },
     { name := "device_locked", sqlType := "BOOLEAN", dflt := some "0" },
     { name := "license_key", sqlType := "TEXT" },
     { name := "license_type", sqlType := "TEXT", dflt := some "'standard'" },
     { name := "license_expires_at", sqlType := "DATETIME" },
     { name := "allowed_applications", sqlType := "TEXT" },
     { name := "application_roles", sqlType := "TEXT" },
     { name := "created_at", sqlType := "DATETIME", dflt := some "CURRENT_TIMESTAMP" },
     { name := "updated_at", sqlType := "DATETIME", dflt := some "CURRENT_TIMESTAMP" },
     { name := "last_activity_at", sqlType := "DATETIME", dflt := some "CURRENT_TIMESTAMP" }]
  foreignKeys := []

/-- The `txa_licenses` table. -/
def txa_licenses : TableDef where
  name := "txa_licenses"
  columns :=
    [{ name := "id", sqlType := "INTEGER", primaryKey := true },
     { name := "key", sqlType := "TEXT", unique := true, notNull := true },
     { name := "type", sqlType := "TEXT", dflt := some "'standard'" },
     { name := "status", sqlType := "TEXT", dflt := some "'unused'" },
     { name := "user_id", sqlType := "INTEGER" },
     { name := "assigned_to", sqlType := "TEXT" },
     { name := "created_at", sqlType := "DATETIME", dflt := some "CURRENT_TIMESTAMP" },
     { name := "activated_at", sqlType := "DATETIME" },
     { name := "expires_at", sqlType := "DATETIME" },
     { name := "max_applications", sqlType := "INTEGER", dflt := some "5" },
     { name := "used_applications", sqlType := "INTEGER", dflt := some "0" },
     { name := "max_devices", sqlType := "INTEGER", dflt := some "1" },
     { name := "registered_devices", sqlType := "TEXT" }]
  foreignKeys := [{ column := "user_id", refTable := "txa_users", refColumn := "id" }]

/-- The `txa_applications` table. -/
def txa_applications : TableDef where
  name := "txa_applications"
  columns :=
    [{ name := "id", sqlType := "INTEGER", primaryKey := true },
     { name := "uuid", sqlType := "TEXT", unique := true },
     { name := "name", sqlType := "TEXT", notNull := true },
     { name := "description", sqlType := "TEXT" },
     { name := "current_version", sqlType := "TEXT", dflt := some "'1.0.0'" },
     { name := "minimum_version", sqlType := "TEXT", dflt := some "'1.0.0'" },
     { name := "force_update", sqlType := "BOOLEAN", dflt := some "0" },
     { name := "status", sqlType := "TEXT", dflt := some "'active'" },
     { name := "maintenance_message", sqlType := "TEXT" },
     { name := "secret_key", sqlType := "TEXT", unique := true },
     { name := "requires_license", sqlType := "BOOLEAN", dflt := some "1" },
     { name := "required_license_type", sqlType := "TEXT", dflt := some "'standard'" },
     { name := "total_users", sqlType := "INTEGER", dflt := some "0" },
     { name := "active_sessions", sqlType := "INTEGER", dflt := some "0" },
     { name := "created_at", sqlType := "DATETIME", dflt := some "CURRENT_TIMESTAMP" },
     { name := "updated_at", sqlType := "DATETIME", dflt := some "CURRENT_TIMESTAMP" }]
  foreignKeys := []

/-- The `txa_sessions` table. -/
def txa_sessions : TableDef where
  name := "txa_sessions"
  columns :=
    [{ name := "id", sqlType := "INTEGER", primaryKey := true },
     { name := "session_id", sqlType := "TEXT", unique := true, notNull := true },
     { name := "user_id", sqlType := "INTEGER", notNull := true },
     { name := "application_id", sqlType := "INTEGER" },
     { name := "device_id", sqlType := "TEXT", notNull := true },
     { name := "ip_address", sqlType := "TEXT" },
     { name := "user_agent", sqlType := "TEXT" },
     { name := "is_active", sqlType := "BOOLEAN", dflt := some "1" },
     { name := "expires_at", sqlType := "DATETIME" },
     { name := "access_token_hash", sqlType := "TEXT" },
     { name := "last_activity_at", sqlType := "DATETIME", dflt := some "CURRENT_TIMESTAMP" },
     { name := "created_at", sqlType := "DATETIME", dflt := some "CURRENT_TIMESTAMP" }]
  foreignKeys :=
    [{ column := "user_id", refTable := "txa_users", refColumn := "id" },
     { column := "application_id", refTable := "txa_applications", refColumn := "id" }]

/-- The `txa_security_events` table. -/
def txa_security_events : TableDef where
  name := "txa_security_events"
  columns :=
    [{ name := "id", sqlType := "INTEGER", primaryKey := true },
     { name := "event_type", sqlType := "TEXT", notNull := true },
     { name := "severity", sqlType := "TEXT", dflt := some "'info'" },
     { name := "user_id", sqlType := "INTEGER" },
     { name := "application_id", sqlType := "INTEGER" },
     { name := "device_id", sqlType := "TEXT" },
     { name := "ip_address", sqlType := "TEXT" },
     { name := "description", sqlType := "TEXT" },
     { name := "details", sqlType := "TEXT" },
     { name := "created_at", sqlType := "DATETIME", dflt := some "CURRENT_TIMESTAMP" }]
  foreignKeys :=
    [{ column := "user_id", refTable := "txa_users", refColumn := "id" },
     { column := "application_id", refTable := "txa_applications", refColumn := "id" }]

/-- The five tables created by the `executescript` call, in order. -/
def schemaTables : List TableDef :=
  [txa_users, txa_licenses, txa_applications, txa_sessions, txa_security_events]

/-! ## The seeded rows (`setup_database.py`, lines 135–176) -/

/-- A `txa_users` row as materialized by an `INSERT` plus the column
defaults of the schema; `created_at`-style timestamp defaults are the
store clock `now`. -/
structure UserRow where
  uuid : Option String
  username : String
  email : String
  password_hash : String
  password_salt : String
  status : String
  is_admin : Bool
  security_level : Nat
  failed_login_attempts : Nat
  lockout_until : Option String
  license_key : Option String
  license_type : String
deriving DecidableEq

/-- The admin-user `INSERT` (lines 140–149): the password hash is
`generate_secure_hash('TXA2024!@#')` with a fresh salt drawn from
`eHash`, the uuid is `secrets.token_hex(18)` from `eUuid`, and the
`password_salt` column receives a separate `secrets.token_hex(16)`
drawn from `eSalt`. -/
def adminUserRow (eHash eUuid eSalt : Nat → Fin 256) : UserRow where
  uuid := some (token_hex eUuid 18)
  username := "admin"
  email := "admin@whiskerauth.com"
  password_hash := generate_secure_hash eHash "TXA2024!@#" none
  password_salt := token_hex eSalt 16
  status := "active"
  is_admin := true
  security_level := 10
  failed_login_attempts := 0
  lockout_until := none
  license_key := none
  license_type := "enterprise"

/-- A `txa_licenses` row as materialized by an `INSERT`. -/
structure LicenseRow where
  key : String
  type : String
  status : String
  user_id : Option Nat
  assigned_to : Option String
  created_at : String
  activated_at : Option String
  expires_at : Option String
  max_applications : Nat
  used_applications : Nat
  max_devices : Nat
  registered_devices : Option String
deriving DecidableEq

/-- The sample-license `INSERT` (lines 158–162): only `key`, `type` and
`max_applications` are supplied; every other column takes the schema
default (`status` `'unused'`, `user_id`/`activated_at`/`expires_at`
NULL, `used_applications` `0`, `max_devices` `1`,
`created_at` the store clock `now`). -/
def sampleLicenseInsert (now key ty : String) (maxApps : Nat) : LicenseRow where
  key := key
  type := ty
  status := "unused"
  user_id := none
  assigned_to := none
  created_at := now
  activated_at := none
  expires_at := none
  max_applications := maxApps
  used_applications := 0
  max_devices := 1
  registered_devices := none

/-- The three sample licenses (lines 152–156), each with its own draw
from the entropy source. -/
def sample_licenses (e1 e2 e3 : Nat → Fin 256) : List (String × String × Nat) :=
  [(SetupDatabase.generate_license_key e1, "standard", 5),
   (SetupDatabase.generate_license_key e2, "premium", 10),
   (SetupDatabase.generate_license_key e3, "enterprise", 25)]

/-- Little-endian base-256 value of a byte list (proof apparatus for the
counting argument on derived keys). -/
def bytesToNat : List Nat → Nat
  | [] => 0
  | b :: r => b + 256 * bytesToNat r

/-! ## Base64 lemmas -/

theorem charToVal_valToChar : ∀ v < 64, charToVal (valToChar v) = some v := by
  decide

theorem valToChar_ne_pad : ∀ v < 64, valToChar v ≠ '=' := by
  decide

theorem decodeChunks_two_pad (v1 v2 : Nat) (h1 : v1 < 64) (h2 : v2 < 64) :
    decodeChunks [valToChar v1, valToChar v2, '=', '='] = some [v1 * 4 + v2 / 16] := by
  simp only [decodeChunks, charToVal_valToChar _ h1, charToVal_valToChar _ h2]
  simp

theorem decodeChunks_one_pad (v1 v2 v3 : Nat) (h1 : v1 < 64) (h2 : v2 < 64) (h3 : v3 < 64) :
    decodeChunks [valToChar v1, valToChar v2, valToChar v3, '='] =
      some [v1 * 4 + v2 / 16, v2 % 16 * 16 + v3 / 4] := by
  simp only [decodeChunks, charToVal_valToChar _ h1, charToVal_valToChar _ h2,
    charToVal_valToChar _ h3, if_neg (valToChar_ne_pad _ h3)]
  simp

theorem decodeChunks_full (v1 v2 v3 v4 : Nat) (rest : List Char)
    (h1 : v1 < 64) (h2 : v2 < 64) (h3 : v3 < 64) (h4 : v4 < 64) :
    decodeChunks (valToChar v1 :: valToChar v2 :: valToChar v3 :: valToChar v4 :: rest) =
      (decodeChunks rest).map fun bs =>
        (v1 * 4 + v2 / 16) :: (v2 % 16 * 16 + v3 / 4) :: (v3 % 4 * 64 + v4) :: bs := by
  simp only [decodeChunks, charToVal_valToChar _ h1, charToVal_valToChar _ h2,
    charToVal_valToChar _ h3, charToVal_valToChar _ h4,
    if_neg (valToChar_ne_pad _ h3), if_neg (valToChar_ne_pad _ h4)]

/-- Round trip: strict decoding undoes the encoding of any byte list. -/
theorem decodeChunks_encodeChunks (bs : List Nat) (h : ∀ b ∈ bs, b < 256) :
    decodeChunks (encodeChunks bs) = some bs := by
  induction bs using encodeChunks.induct with
  | case1 => rfl
  | case2 a =>
      have ha : a < 256 := h a (by simp)
      rw [encodeChunks, decodeChunks_two_pad _ _ (by omega) (by omega)]
      congr 2
      omega
  | case3 a b =>
      have ha : a < 256 := h a (by simp)
      have hb : b < 256 := h b (by simp)
      rw [encodeChunks, decodeChunks_one_pad _ _ _ (by omega) (by omega) (by omega)]
      congr 3 <;> omega
  | case4 a b c rest ih =>
      have ha : a < 256 := h a (by simp)
      have hb : b < 256 := h b (by simp)
      have hc : c < 256 := h c (by simp)
      rw [encodeChunks, decodeChunks_full _ _ _ _ _ (by omega) (by omega) (by omega) (by omega),
        ih (fun x hx => h x (by simp [hx]))]
      simp only [Option.map_some', Option.some.injEq, List.cons.injEq]
      exact ⟨by omega, by omega, by omega, trivial⟩

/-- The encoding of `n` bytes has `(n + 2) / 3 * 4` characters. -/
theorem encodeChunks_length (bs : List Nat) :
    (encodeChunks bs).length = (bs.length + 2) / 3 * 4 := by
  induction bs using encodeChunks.induct with
  | case1 => rfl
  | case2 a => simp [encodeChunks]
  | case3 a b => simp [encodeChunks]
  | case4 a b c rest ih =>
      simp only [encodeChunks, List.length_cons, ih]
      omega

/-! ## Shape lemmas for the hash pipeline -/

theorem token_bytes_length (e : Nat → Fin 256) (n : Nat) :
    (token_bytes e n).length = n := by
  simp [token_bytes]

theorem token_bytes_lt (e : Nat → Fin 256) (n : Nat) :
    ∀ b ∈ token_bytes e n, b < 256 := by
  intro b hb
  simp only [token_bytes, List.mem_map] at hb
  obtain ⟨i, _, rfl⟩ := hb
  exact (e i).isLt

theorem sha256Round_length (st : List Nat) (kw : Nat × Nat) :
    (sha256Round st kw).length = 8 := rfl

theorem foldl_sha256Round_length (l : List (Nat × Nat)) (st : List Nat) (h : st.length = 8) :
    (List.foldl sha256Round st l).length = 8 := by
  induction l generalizing st with
  | nil => exact h
  | cons kw t ih => exact ih _ (sha256Round_length st kw)

theorem processBlock_length (h : List Nat) (block : List Nat) (hl : h.length = 8) :
    (processBlock h block).length = 8 := by
  simp only [processBlock, List.length_map, List.length_zip, hl,
    foldl_sha256Round_length _ _ hl, Nat.min_self]

theorem foldl_processBlock_length (bs : List (List Nat)) (h : List Nat) (hl : h.length = 8) :
    (List.foldl processBlock h bs).length = 8 := by
  induction bs generalizing h with
  | nil => exact hl
  | cons b t ih => exact ih _ (processBlock_length _ _ hl)

theorem flatten_map_wordToBytes_length (l : List Nat) :
    ((l.map wordToBytes).flatten).length = 4 * l.length := by
  induction l with
  | nil => rfl
  | cons w t ih =>
      simp only [List.map_cons, List.flatten_cons, List.length_append, ih,
        List.length_cons]
      simp [wordToBytes]
      omega

theorem sha256_length (msg : List Nat) : (sha256 msg).length = 32 := by
  simp only [sha256, flatten_map_wordToBytes_length,
    foldl_processBlock_length _ _ (by rfl : H256.length = 8)]

theorem sha256_lt (msg : List Nat) : ∀ b ∈ sha256 msg, b < 256 := by
  intro b hb
  simp only [sha256, List.mem_flatten, List.mem_map] at hb
  obtain ⟨l, ⟨w, _, rfl⟩, hbl⟩ := hb
  simp only [wordToBytes, List.mem_cons, List.not_mem_nil, or_false] at hbl
  rcases hbl with rfl | rfl | rfl | rfl <;> exact Nat.mod_lt _ (by norm_num)

theorem hmac_sha256_length (key msg : List Nat) : (hmac_sha256 key msg).length = 32 :=
  sha256_length _

theorem hmac_sha256_lt (key msg : List Nat) : ∀ b ∈ hmac_sha256 key msg, b < 256 :=
  sha256_lt _

theorem zipWith_xor_length (a b : List Nat) :
    (a.zipWith (· ^^^ ·) b).length = min a.length b.length := by
  simp [List.length_zipWith]

theorem zipWith_xor_lt (a b : List Nat) (ha : ∀ x ∈ a, x < 256) (hb : ∀ x ∈ b, x < 256) :
    ∀ x ∈ a.zipWith (· ^^^ ·) b, x < 256 := by
  induction a generalizing b with
  | nil => intro x hx; simp at hx
  | cons y t ih =>
      intro x hx
      cases b with
      | nil => simp at hx
      | cons z u =>
          simp only [List.zipWith_cons_cons, List.mem_cons] at hx
          rcases hx with rfl | hx
          · have h1 : y < 2 ^ 8 := ha y (by simp)
            have h2 : z < 2 ^ 8 := hb z (by simp)
            exact Nat.xor_lt_two_pow h1 h2
          · exact ih u (fun w hw => ha w (by simp [hw])) (fun w hw => hb w (by simp [hw])) x hx

theorem pbkdf2Loop_length (password : List Nat) (u acc : List Nat) (n : Nat)
    (hacc : acc.length = 32) : (pbkdf2Loop password u acc n).length = 32 := by
  induction n generalizing u acc with
  | zero => exact hacc
  | succ m ih =>
      simp only [pbkdf2Loop]
      exact ih _ _ (by simp [zipWith_xor_length, hacc, hmac_sha256_length])

theorem pbkdf2Loop_lt (password : List Nat) (u acc : List Nat) (n : Nat)
    (hacc : ∀ b ∈ acc, b < 256) : ∀ b ∈ pbkdf2Loop password u acc n, b < 256 := by
  induction n generalizing u acc with
  | zero => exact hacc
  | succ m ih =>
      simp only [pbkdf2Loop]
      exact ih _ _ (zipWith_xor_lt _ _ hacc (hmac_sha256_lt _ _))

theorem pbkdf2_hmac_length (password salt : List Nat) (iterations : Nat) :
    (pbkdf2_hmac password salt iterations).length = 32 :=
  pbkdf2Loop_length _ _ _ _ (hmac_sha256_length _ _)

theorem pbkdf2_hmac_lt (password salt : List Nat) (iterations : Nat) :
    ∀ b ∈ pbkdf2_hmac password salt iterations, b < 256 :=
  pbkdf2Loop_lt _ _ _ _ (hmac_sha256_lt _ _)

/-! ## Hasher and verifier lemmas -/

theorem generate_secure_hash_some (e : Nat → Fin 256) (d : String) (salt : List Nat) :
    generate_secure_hash e d (some salt) =
      b64encode (salt ++ pbkdf2_hmac (strBytes d) salt 100000) := rfl

theorem generate_secure_hash_none (e : Nat → Fin 256) (d : String) :
    generate_secure_hash e d none =
      generate_secure_hash e d (some (token_bytes e 32)) := rfl

theorem b64decode_b64encode (bs : List Nat) (h : ∀ b ∈ bs, b < 256) :
    b64decode (b64encode bs) = some bs :=
  decodeChunks_encodeChunks bs h

theorem b64encode_length (bs : List Nat) :
    (b64encode bs).length = (bs.length + 2) / 3 * 4 :=
  encodeChunks_length bs

theorem salt_key_lt (d : String) (salt : List Nat) (hlt : ∀ b ∈ salt, b < 256) :
    ∀ b ∈ salt ++ pbkdf2_hmac (strBytes d) salt 100000, b < 256 := by
  intro b hb
  rcases List.mem_append.mp hb with h | h
  · exact hlt b h
  · exact pbkdf2_hmac_lt _ _ _ b h

theorem verify_gsh_iff (e : Nat → Fin 256) (s1 s2 : String) (salt : List Nat)
    (hlen : salt.length = 32) (hlt : ∀ b ∈ salt, b < 256) :
    (verify s2 (generate_secure_hash e s1 (some salt)) = true ↔
      pbkdf2_hmac (strBytes s2) salt 100000 = pbkdf2_hmac (strBytes s1) salt 100000) := by
  have ht : (salt ++ pbkdf2_hmac (strBytes s1) salt 100000).take 32 = salt := by
    rw [← hlen]; exact List.take_left _ _
  have hd : (salt ++ pbkdf2_hmac (strBytes s1) salt 100000).drop 32 =
      pbkdf2_hmac (strBytes s1) salt 100000 := by
    rw [← hlen]; exact List.drop_left _ _
  rw [generate_secure_hash_some]
  unfold verify
  rw [b64decode_b64encode _ (salt_key_lt s1 salt hlt)]
  simp only [ht, hd]
  exact decide_eq_true_iff

theorem verify_gsh_self (e : Nat → Fin 256) (s : String) (salt : List Nat)
    (hlen : salt.length = 32) (hlt : ∀ b ∈ salt, b < 256) :
    verify s (generate_secure_hash e s (some salt)) = true :=
  (verify_gsh_iff e s s salt hlen hlt).mpr rfl

theorem gsh_ne_of_salt_ne (e1 e2 : Nat → Fin 256) (s : String) (s1 s2 : List Nat)
    (h1 : s1.length = 32) (hlt1 : ∀ b ∈ s1, b < 256)
    (hlt2 : ∀ b ∈ s2, b < 256) (hne : s1 ≠ s2) :
    generate_secure_hash e1 s (some s1) ≠ generate_secure_hash e2 s (some s2) := by
  intro heq
  apply hne
  have hdec : b64decode (b64encode (s1 ++ pbkdf2_hmac (strBytes s) s1 100000)) =
      b64decode (b64encode (s2 ++ pbkdf2_hmac (strBytes s) s2 100000)) :=
    congrArg b64decode heq
  rw [b64decode_b64encode _ (salt_key_lt s s1 hlt1),
    b64decode_b64encode _ (salt_key_lt s s2 hlt2)] at hdec
  have happ := Option.some.inj hdec
  have h2 : s2.length = 32 := by
    have hl := congrArg List.length happ
    simp only [List.length_append, pbkdf2_hmac_length] at hl
    omega
  have htake := congrArg (List.take 32) happ
  rwa [List.take_left' h1, List.take_left' h2] at htake

/-! ## Counting apparatus: derived keys live in a finite space -/

theorem bytesToNat_inj : ∀ l1 l2 : List Nat, l1.length = l2.length →
    (∀ b ∈ l1, b < 256) → (∀ b ∈ l2, b < 256) →
    bytesToNat l1 = bytesToNat l2 → l1 = l2 := by
  intro l1
  induction l1 with
  | nil =>
      intro l2 hlen _ _ _
      exact (List.length_eq_zero.mp hlen.symm).symm
  | cons b r ih =>
      intro l2 hlen hb1 hb2 hval
      cases l2 with
      | nil => simp at hlen
      | cons c t =>
          simp only [bytesToNat] at hval
          have hbc : b < 256 := hb1 b (by simp)
          have hcc : c < 256 := hb2 c (by simp)
          have hb_eq : b = c ∧ bytesToNat r = bytesToNat t := by omega
          have ht : r = t := ih t (by simpa using hlen)
            (fun x hx => hb1 x (by simp [hx])) (fun x hx => hb2 x (by simp [hx])) hb_eq.2
          rw [hb_eq.1, ht]

theorem bytesToNat_lt : ∀ l : List Nat, (∀ b ∈ l, b < 256) →
    bytesToNat l < 256 ^ l.length := by
  intro l
  induction l with
  | nil => intro _; simp [bytesToNat]
  | cons b r ih =>
      intro hb
      simp only [bytesToNat, List.length_cons, pow_succ]
      have h1 : b < 256 := hb b (by simp)
      have h2 : bytesToNat r < 256 ^ r.length := ih fun x hx => hb x (by simp [hx])
      calc b + 256 * bytesToNat r < 256 + 256 * bytesToNat r := by omega
        _ ≤ 256 * (bytesToNat r + 1) := by ring_nf; omega
        _ ≤ 256 * 256 ^ r.length := by
            apply Nat.mul_le_mul_left
            omega
        _ = 256 ^ r.length * 256 := by ring

/-- Two distinct secrets whose derived keys under a fixed salt coincide
exist: there are infinitely many secrets but at most `256 ^ 32` keys. -/
theorem pbkdf2_collision_exists (salt : List Nat) :
    ∃ s1 s2 : String, s1 ≠ s2 ∧
      pbkdf2_hmac (strBytes s1) salt 100000 = pbkdf2_hmac (strBytes s2) salt 100000 := by
  have key_lt : ∀ s : String,
      bytesToNat (pbkdf2_hmac (strBytes s) salt 100000) < 256 ^ 32 := by
    intro s
    have := bytesToNat_lt (pbkdf2_hmac (strBytes s) salt 100000)
      (pbkdf2_hmac_lt _ _ _)
    rwa [pbkdf2_hmac_length] at this
  have hmap : Set.MapsTo
      (fun s : String => bytesToNat (pbkdf2_hmac (strBytes s) salt 100000))
      Set.univ (Set.Iio ((256 : Nat) ^ 32)) := fun s _ => key_lt s
  obtain ⟨s1, -, s2, -, hne, heq⟩ :=
    Set.infinite_univ.exists_ne_map_eq_of_mapsTo hmap (Set.finite_Iio _)
  refine ⟨s1, s2, hne, ?_⟩
  exact bytesToNat_inj _ _
    (by rw [pbkdf2_hmac_length, pbkdf2_hmac_length])
    (pbkdf2_hmac_lt _ _ _) (pbkdf2_hmac_lt _ _ _) heq

/-! ## Hex-encoding lemmas for the license key generator -/

theorem flatten_map_byteToHex_length (l : List Nat) :
    ((l.map byteToHex).flatten).length = 2 * l.length := by
  induction l with
  | nil => rfl
  | cons b t ih =>
      simp only [List.map_cons, List.flatten_cons, List.length_append, ih,
        List.length_cons, byteToHex]
      simp
      omega

theorem token_hex_length (e : Nat → Fin 256) (n : Nat) :
    (token_hex e n).length = 2 * n := by
  show (((token_bytes e n).map byteToHex).flatten).length = 2 * n
  rw [flatten_map_byteToHex_length, token_bytes_length]

theorem strUpper_length (s : String) : (strUpper s).length = s.length := by
  show (s.data.map Char.toUpper).length = s.data.length
  simp

theorem hexDigits_getD_mem : ∀ i < 16, hexDigits.getD i '0' ∈ hexDigits := by
  decide

theorem byteToHex_mem_hexDigits (b : Nat) (hb : b < 256) :
    ∀ c ∈ byteToHex b, c ∈ hexDigits := by
  intro c hc
  simp only [byteToHex, List.mem_cons, List.not_mem_nil, or_false] at hc
  rcases hc with rfl | rfl
  · exact hexDigits_getD_mem _ (by omega)
  · exact hexDigits_getD_mem _ (by omega)

theorem toUpper_mem_upperHex : ∀ d ∈ hexDigits, Char.toUpper d ∈ "0123456789ABCDEF".toList := by
  decide

theorem token_hex_chars (e : Nat → Fin 256) (n : Nat) :
    ∀ c ∈ (token_hex e n).data, c ∈ hexDigits := by
  intro c hc
  have hc2 : c ∈ ((token_bytes e n).map byteToHex).flatten := hc
  rw [List.mem_flatten] at hc2
  obtain ⟨l, hl, hcl⟩ := hc2
  obtain ⟨b, hb, rfl⟩ := List.mem_map.mp hl
  exact byteToHex_mem_hexDigits b (token_bytes_lt e n b hb) c hcl

theorem license_key_chars (e : Nat → Fin 256) :
    ∀ c ∈ (GenerateLicense.generate_license_key e).data, c ∈ "0123456789ABCDEF".toList := by
  intro c hc
  have hc2 : c ∈ (token_hex e 32).data.map Char.toUpper := hc
  obtain ⟨d, hd, rfl⟩ := List.mem_map.mp hc2
  exact toUpper_mem_upperHex d (token_hex_chars e 32 d hd)

/-! ## The claims -/

/-- C1 (counterexample): the claim that `verify(S2, hash(S1)) = false` for
ALL pairs of distinct secrets is false: the derived keys live in a space of
`256 ^ 32` values while there are infinitely many secrets, so two distinct
secrets with the same verifier-key under the drawn salt exist, and `verify`
accepts the second secret against the first's verifier. -/
theorem verify_reject_all_distinct_false :
    ¬ (∀ (e : Nat → Fin 256) (s1 s2 : String), s1 ≠ s2 →
      verify s2 (generate_secure_hash e s1 none) = false) := by
  intro hall
  obtain ⟨s1, s2, hne, heq⟩ := pbkdf2_collision_exists (token_bytes (fun _ => 0) 32)
  have hv := (verify_gsh_iff (fun _ => 0) s1 s2 (token_bytes (fun _ => 0) 32)
    (token_bytes_length _ _) (token_bytes_lt _ _)).mpr heq.symm
  have hf := hall (fun _ => 0) s1 s2 hne
  rw [generate_secure_hash_none] at hf
  rw [hf] at hv
  exact absurd hv (by decide)

/-- C1 (amended): verifying `S` against `hash(S)` always succeeds; and
verifying `S2` against `hash(S1)` succeeds exactly when the PBKDF2-derived
keys of `S2` and `S1` under the embedded salt coincide — so it fails for
every pair whose keys differ, which is all pairs except the
computationally unfindable collisions. -/
theorem verify_roundtrip_and_mismatch :
    (∀ (e : Nat → Fin 256) (s : String),
      verify s (generate_secure_hash e s none) = true) ∧
    (∀ (e : Nat → Fin 256) (s1 s2 : String),
      verify s2 (generate_secure_hash e s1 none) = true ↔
        pbkdf2_hmac (strBytes s2) (token_bytes e 32) 100000 =
          pbkdf2_hmac (strBytes s1) (token_bytes e 32) 100000) := by
  constructor
  · intro e s
    rw [generate_secure_hash_none]
    exact verify_gsh_self e s _ (token_bytes_length _ _) (token_bytes_lt _ _)
  · intro e s1 s2
    rw [generate_secure_hash_none]
    exact verify_gsh_iff e s1 s2 _ (token_bytes_length _ _) (token_bytes_lt _ _)

/-- C2 (counterexample): the stored user schema DOES keep a salt field
distinct from the encoded verifier: `txa_users` declares a
`password_salt` column, and the admin insert fills it with a separately
drawn 16-byte hex token which is a different string from the encoded
verifier in `password_hash`. -/
theorem separate_salt_column_exists :
    ("password_salt" ∈ txa_users.columns.map ColumnDef.name) ∧
    (adminUserRow (fun _ => 0) (fun _ => 0) (fun _ => 0)).password_salt =
      token_hex (fun _ => 0) 16 ∧
    (adminUserRow (fun _ => 0) (fun _ => 0) (fun _ => 0)).password_salt ≠
      (adminUserRow (fun _ => 0) (fun _ => 0) (fun _ => 0)).password_hash := by
  refine ⟨by decide, rfl, ?_⟩
  intro h
  have hlen : (token_hex (fun _ => (0 : Fin 256)) 16).length =
      (generate_secure_hash (fun _ => 0) "TXA2024!@#" none).length :=
    congrArg String.length h
  rw [token_hex_length, generate_secure_hash_none, generate_secure_hash_some,
    b64encode_length] at hlen
  simp only [List.length_append, token_bytes_length, pbkdf2_hmac_length] at hlen
  omega

/-- C2 (amended): the hasher does encode `salt ‖ derivedKey` into a single
opaque base64 string, but the salt IS also stored separately: `txa_users`
keeps a NOT NULL `password_salt` column and the admin insert populates it
with an independently drawn `token_hex(16)` value, distinct from the
encoded verifier. -/
theorem hasher_encodes_but_salt_also_stored (e1 e2 e3 : Nat → Fin 256) :
    (∀ (e : Nat → Fin 256) (d : String) (salt : List Nat),
      generate_secure_hash e d (some salt) =
        b64encode (salt ++ pbkdf2_hmac (strBytes d) salt 100000)) ∧
    (∃ c ∈ txa_users.columns, c.name = "password_salt" ∧ c.notNull = true) ∧
    (adminUserRow e1 e2 e3).password_salt = token_hex e3 16 ∧
    (adminUserRow e1 e2 e3).password_salt ≠ (adminUserRow e1 e2 e3).password_hash := by
  refine ⟨fun e d salt => rfl, by decide, rfl, ?_⟩
  intro h
  have hlen : (token_hex e3 16).length =
      (generate_secure_hash e1 "TXA2024!@#" none).length :=
    congrArg String.length h
  rw [token_hex_length, generate_secure_hash_none, generate_secure_hash_some,
    b64encode_length] at hlen
  simp only [List.length_append, token_bytes_length, pbkdf2_hmac_length] at hlen
  omega

/-- C3: with no salt supplied, `generate_secure_hash` draws a fresh
32-byte salt from the secure source and derives the key by
PBKDF2-HMAC-SHA256 with exactly 100000 iterations (hence at least
100000), encoding `salt ‖ key` in base64. -/
theorem fresh_salt_32_and_100000_iterations (e : Nat → Fin 256) (d : String) :
    generate_secure_hash e d none =
      b64encode (token_bytes e 32 ++
        pbkdf2_hmac (strBytes d) (token_bytes e 32) 100000) ∧
    (token_bytes e 32).length = 32 := by
  exact ⟨rfl, token_bytes_length e 32⟩

/-- C4: verification is a total function; a verifier that does not decode
is treated as a failed verification, and any key mismatch yields `false`. -/
theorem verify_total_and_malformed_false (s v : String) :
    (b64decode v = none → verify s v = false) ∧
    (∀ bytes, b64decode v = some bytes →
      pbkdf2_hmac (strBytes s) (bytes.take 32) 100000 ≠ bytes.drop 32 →
      verify s v = false) ∧
    (verify s v = true ∨ verify s v = false) := by
  refine ⟨?_, ?_, ?_⟩
  · intro hnone
    unfold verify
    rw [hnone]
  · intro bytes hsome hne
    unfold verify
    rw [hsome]
    simpa using hne
  · cases hv : verify s v
    · exact Or.inr rfl
    · exact Or.inl rfl

/-- C4 (witness): the malformed verifier `"%"` fails verification. -/
theorem verify_malformed_witness : verify "pw" "%" = false :=
  (verify_total_and_malformed_false "pw" "%").1 (by decide)

/-- C5: the license key generator returns a 64-character string of
uppercase hexadecimal characters, computed as the uppercasing of the hex
rendering of 32 bytes drawn from the secure source; the definitions in
`generate_license.py` and `setup_database.py` coincide. -/
theorem license_key_format (e : Nat → Fin 256) :
    (GenerateLicense.generate_license_key e).length = 64 ∧
    (∀ c ∈ (GenerateLicense.generate_license_key e).data,
      c ∈ "0123456789ABCDEF".toList) ∧
    GenerateLicense.generate_license_key e = strUpper (token_hex e 32) ∧
    SetupDatabase.generate_license_key e = GenerateLicense.generate_license_key e ∧
    (token_bytes e 32).length = 32 := by
  refine ⟨?_, license_key_chars e, rfl, rfl, token_bytes_length e 32⟩
  rw [show GenerateLicense.generate_license_key e = strUpper (token_hex e 32) from rfl,
    strUpper_length, token_hex_length]

/-- C5 (witness): at the constant-zero entropy stream the generated key
has 64 characters and both generator definitions agree. -/
theorem license_key_format_witness :
    (GenerateLicense.generate_license_key (fun _ => 0)).length = 64 ∧
    SetupDatabase.generate_license_key (fun _ => 0) =
      GenerateLicense.generate_license_key (fun _ => 0) :=
  ⟨(license_key_format (fun _ => 0)).1,
   (license_key_format (fun _ => 0)).2.2.2.1⟩

/-- C6: two hash calls with the same secret and no supplied salt whose
fresh salt draws differ produce different verifier strings, and both
verify against the secret. -/
theorem hash_nondeterministic (e1 e2 : Nat → Fin 256) (s : String)
    (hne : token_bytes e1 32 ≠ token_bytes e2 32) :
    generate_secure_hash e1 s none ≠ generate_secure_hash e2 s none ∧
    verify s (generate_secure_hash e1 s none) = true ∧
    verify s (generate_secure_hash e2 s none) = true := by
  refine ⟨?_, ?_, ?_⟩
  · rw [generate_secure_hash_none e1, generate_secure_hash_none e2]
    exact gsh_ne_of_salt_ne e1 e2 s _ _ (token_bytes_length _ _)
      (token_bytes_lt _ _) (token_bytes_lt _ _) hne
  · rw [generate_secure_hash_none]
    exact verify_gsh_self e1 s _ (token_bytes_length _ _) (token_bytes_lt _ _)
  · rw [generate_secure_hash_none]
    exact verify_gsh_self e2 s _ (token_bytes_length _ _) (token_bytes_lt _ _)

/-- C6 (witness): with the constant-zero and constant-one entropy streams
the two verifiers for the secret `"TXA2024!@#"` differ yet both verify. -/
theorem hash_nondeterministic_witness :
    generate_secure_hash (fun _ => 0) "TXA2024!@#" none ≠
      generate_secure_hash (fun _ => 1) "TXA2024!@#" none ∧
    verify "TXA2024!@#" (generate_secure_hash (fun _ => 0) "TXA2024!@#" none) = true ∧
    verify "TXA2024!@#" (generate_secure_hash (fun _ => 1) "TXA2024!@#" none) = true :=
  hash_nondeterministic (fun _ => 0) (fun _ => 1) "TXA2024!@#" (by decide)

/-- C7: the schema puts UNIQUE constraints on `txa_users.username`,
`txa_users.email`, `txa_licenses.key`, `txa_applications.secret_key` and
`txa_sessions.session_id`, and declares the foreign keys
`txa_licenses.user_id → txa_users.id`,
`txa_sessions.user_id → txa_users.id`,
`txa_sessions.application_id → txa_applications.id`, and nullable
(optional) references from `txa_security_events` to both `txa_users`
and `txa_applications`. -/
theorem schema_constraints :
    (∃ c ∈ txa_users.columns, c.name = "username" ∧ c.unique = true) ∧
    (∃ c ∈ txa_users.columns, c.name = "email" ∧ c.unique = true) ∧
    (∃ c ∈ txa_licenses.columns, c.name = "key" ∧ c.unique = true) ∧
    (∃ c ∈ txa_applications.columns, c.name = "secret_key" ∧ c.unique = true) ∧
    (∃ c ∈ txa_sessions.columns, c.name = "session_id" ∧ c.unique = true) ∧
    ({ column := "user_id", refTable := "txa_users", refColumn := "id" } ∈
      txa_licenses.foreignKeys) ∧
    ({ column := "user_id", refTable := "txa_users", refColumn := "id" } ∈
      txa_sessions.foreignKeys) ∧
    ({ column := "application_id", refTable := "txa_applications", refColumn := "id" } ∈
      txa_sessions.foreignKeys) ∧
    ({ column := "user_id", refTable := "txa_users", refColumn := "id" } ∈
      txa_security_events.foreignKeys) ∧
    ({ column := "application_id", refTable := "txa_applications", refColumn := "id" } ∈
      txa_security_events.foreignKeys) ∧
    (∃ c ∈ txa_security_events.columns, c.name = "user_id" ∧ c.notNull = false) ∧
    (∃ c ∈ txa_security_events.columns, c.name = "application_id" ∧ c.notNull = false) := by
  decide

/-- C8: a license row inserted with only key, type and max_applications
(as the sample-license inserts are) starts `unused`, with no owning user,
no activation timestamp and a zero used-applications counter; `'unused'`
is indeed the schema default for `txa_licenses.status`. -/
theorem license_insert_defaults (now key ty : String) (maxApps : Nat) :
    (sampleLicenseInsert now key ty maxApps).status = "unused" ∧
    (sampleLicenseInsert now key ty maxApps).user_id = none ∧
    (sampleLicenseInsert now key ty maxApps).activated_at = none ∧
    (sampleLicenseInsert now key ty maxApps).used_applications = 0 ∧
    (∃ c ∈ txa_licenses.columns, c.name = "status" ∧ c.dflt = some "'unused'") :=
  ⟨rfl, rfl, rfl, rfl, by decide⟩

/-- C9: base64-decoding the verifier built over a 32-byte salt recovers
exactly `salt ++ key`: the first 32 bytes are the salt, the rest is the
32-byte derived key, 64 bytes in total. -/
theorem verifier_decodes_to_salt_and_key (e : Nat → Fin 256) (s : String)
    (salt : List Nat) (hlen : salt.length = 32) (hlt : ∀ b ∈ salt, b < 256) :
    b64decode (generate_secure_hash e s (some salt)) =
      some (salt ++ pbkdf2_hmac (strBytes s) salt 100000) ∧
    (salt ++ pbkdf2_hmac (strBytes s) salt 100000).take 32 = salt ∧
    (salt ++ pbkdf2_hmac (strBytes s) salt 100000).length = 64 := by
  refine ⟨?_, List.take_left' hlen, ?_⟩
  · rw [generate_secure_hash_some]
    exact b64decode_b64encode _ (salt_key_lt s salt hlt)
  · simp only [List.length_append, pbkdf2_hmac_length, hlen]

/-- C9 (witness): at the all-zero 32-byte salt the verifier decodes back
to the salt followed by the derived key. -/
theorem verifier_decodes_witness :
    b64decode (generate_secure_hash (fun _ => 0) "a" (some (List.replicate 32 0))) =
      some (List.replicate 32 0 ++
        pbkdf2_hmac (strBytes "a") (List.replicate 32 0) 100000) ∧
    (List.replicate 32 0 ++
      pbkdf2_hmac (strBytes "a") (List.replicate 32 0) 100000).take 32 =
      List.replicate 32 0 ∧
    (List.replicate 32 0 ++
      pbkdf2_hmac (strBytes "a") (List.replicate 32 0) 100000).length = 64 :=
  verifier_decodes_to_salt_and_key (fun _ => 0) "a" (List.replicate 32 0)
    (by decide) (by decide)

/-- C10: with an explicitly supplied salt the hasher is deterministic —
it does not consult the randomness source at all, so any two calls with
the same secret and salt return the same verifier string. -/
theorem hash_deterministic_with_salt (e1 e2 : Nat → Fin 256) (d : String)
    (salt : List Nat) :
    generate_secure_hash e1 d (some salt) = generate_secure_hash e2 d (some salt) := rfl

end WhiskerAuth
